import Mathlib

/-!
Verification of the business-search aggregation routine of
`lead_finder/lead_finder/tools/maps_search.py`.

The Python module is shallowly embedded: dictionaries become structures with
optional fields, the Google Maps client becomes an explicit environment of
fallible operations (`Except String`), the lazily initialized global client
becomes an explicit `ClientState` threaded through the calls, the `time.sleep`
rate-limit delay becomes a counter of performed delays, and the unbounded
pagination `while` loop takes explicit fuel.  Floating point ratings are
modelled as rationals (all comparisons performed by the code are order
comparisons on small decimal literals, where `Rat` and IEEE doubles agree).
-/

/-- Substring occurrence test on character lists: `subList pat s` is true iff
`pat` occurs contiguously inside `s` (the model of Python's `pat in s`). -/
def subList (pat : List Char) : List Char → Bool
  | [] => pat.isPrefixOf []
  | c :: rest => pat.isPrefixOf (c :: rest) || subList pat rest

/-- Python's substring operator `pat in s` on strings. -/
def strContains (s pat : String) : Bool := subList pat.data s.data

/-- Python's `s.lower()` (ASCII case folding suffices for the literals used). -/
def strLower (s : String) : String := ⟨s.data.map Char.toLower⟩

/-- A geographic point (`geometry.location` of a geocode / place result). -/
structure Location where
  lat : Rat
  lng : Rat
deriving DecidableEq, Repr

/-- A raw search hit: the fields of a Places text/nearby search result that
`search_businesses` reads.  Missing dictionary keys are `none`. -/
structure Hit where
  place_id : Option String
  name : Option String
  formatted_address : Option String
  rating : Option Rat
  types : Option (List String)
  lat : Option Rat
  lng : Option Rat
deriving DecidableEq, Repr

/-- The `opening_hours` sub-dictionary of a place-details record. -/
structure OpeningHoursD where
  open_now : Option Bool
deriving DecidableEq, Repr

/-- The fields of a place-details record that `search_businesses` reads. -/
structure PlaceDetails where
  name : Option String
  formatted_address : Option String
  formatted_phone_number : Option String
  website : Option String
  rating : Option Rat
  user_ratings_total : Option Nat
  types : Option (List String)
  price_level : Option Int
  opening_hours : Option OpeningHoursD
deriving DecidableEq, Repr

/-- One page of a Places search response. -/
structure Page where
  results : List Hit
  next_page_token : Option String
deriving DecidableEq, Repr

/-- The normalized business record assembled by `search_businesses`
(the `business` dictionary of lines 416-431). -/
structure Business where
  place_id : String
  name : String
  address : String
  phone : String
  website : String
  rating : Rat
  total_ratings : Nat
  category : String
  price_level : Int
  is_open : Bool
  lat : Option Rat
  lng : Option Rat
deriving DecidableEq, Repr

/-- State of the lazily initialized `GoogleMapsClient` wrapper:
whether `self.client` is non-`None` and the `_api_key_checked` flag. -/
structure ClientState where
  client : Bool
  apiKeyChecked : Bool
deriving DecidableEq, Repr

/-- The environment of external capabilities consumed by the aggregator:
configuration state read by `_ensure_client` / `_initialize_client` and the
four Google Maps operations.  Each operation may fail (`Except.error` models a
raised exception). -/
structure Env where
  apiKey : String
  freshApiKey : String
  reinitClient : Bool
  geocode : String → Except String (List Location)
  textSearch : String → Location → Nat → Except String Page
  nearbySearch : Location → Nat → Option String → Option String → Except String Page
  placeDetails : String → Except String (Option PlaceDetails)

/-- `search_metadata` of the result dictionary of `google_maps_search`. -/
structure SearchMetadata where
  city : String
  business_type : Option String
  min_rating : Rat
  max_results : Nat
  api_available : Bool
  exclude_websites : Bool
deriving DecidableEq, Repr

/-- The result dictionary of `google_maps_search` (`message` is present only
on the error path, modelled by `Option`). -/
structure SearchResult where
  status : String
  message : Option String
  total_results : Nat
  results : List Business
  search_metadata : SearchMetadata
deriving DecidableEq, Repr

/-- The keyword list of `_get_primary_category` (lines 75-78). -/
def businessTypesKeywords : List String :=
  ["restaurant", "cafe", "bar", "store", "shop", "retail",
   "service", "business", "establishment"]

/-- The loop condition of `_get_primary_category` (line 81):
`any(bt in type_.lower() for bt in business_types)`. -/
def categoryKeywordHit (t : String) : Bool :=
  businessTypesKeywords.any (fun kw => strContains (strLower t) kw)

/-- `_get_primary_category` (lines 69-84): the first type whose lowercasing
contains one of the business keywords, else the first type, else `""`. -/
def getPrimaryCategory (types : List String) : String :=
  if types.isEmpty then ""
  else
    match types.find? categoryKeywordHit with
    | some t => t
    | none => types.headD ""

/-- `_get_open_status` (lines 86-88). -/
def getOpenStatus (hours : Option OpeningHoursD) : Bool :=
  match hours with
  | some h => h.open_now.getD false
  | none => false

/-- The `all([...])` heuristic of lines 401-410 deciding that a website string
looks like a real, functional site. -/
def looksReal (w : String) : Bool :=
  decide (5 < w.length) &&
  w.data.contains '.' &&
  !("http://localhost".data.isPrefixOf w.data) &&
  !("example.com".data.isSuffixOf w.data) &&
  !(subList "placeholder".data (strLower w).data) &&
  !(subList "coming-soon".data (strLower w).data) &&
  !(subList "under-construction".data (strLower w).data)

/-- `_get_place_details` (lines 57-67) on the live path: empty dictionary
(`none`) when the id is empty, details lookup fails, or the response has no
`result` entry. -/
def getPlaceDetails (env : Env) (pid : String) : Option PlaceDetails :=
  if pid = "" then none
  else
    match env.placeDetails pid with
    | .ok d => d
    | .error _ => none

/-- Python's `business_type or dflt` for the optional business-type string. -/
def pyOr (bt : Option String) (dflt : String) : String :=
  match bt with
  | some t => if t = "" then dflt else t
  | none => dflt

/-- The f-string `f"mock_{city.lower()}_{k}"` used for the identifiers of the
mock records. -/
def mockId (city : String) (k : Nat) : String :=
  "mock_" ++ strLower city ++ "_" ++ toString k

/-- One entry of the static catalog inside `_get_mock_results`: a business
dictionary whose address interpolates the city
(`f"{pre}{city}, India"`), whose website is `""` and which is open. -/
def mockBiz (city : String) (bt : Option String) (k : Nat) (nm pre ph : String)
    (rt : Rat) (tot : Nat) (catD : String) (pl : Int) (la lo : Rat) : Business :=
  { place_id := mockId city k
    name := nm
    address := pre ++ city ++ ", India"
    phone := ph
    website := ""
    rating := rt
    total_ratings := tot
    category := pyOr bt catD
    price_level := pl
    is_open := true
    lat := some la
    lng := some lo }

/-- `_get_mock_results` (lines 90-160): the fixed list of 38 synthetic Indian
business records, deterministic in the city name. -/
def mockResults (city : String) (bt : Option String) : List Business :=
  [mockBiz city bt 1 "Shree Krishna Restaurant" "Shop 12, MG Road, " "+91-9876543210" 4.5 287 "Restaurant" 2 28.6139 77.2090,
   mockBiz city bt 2 "Sharma Sweets & Namkeen" "17, Bazaar Street, " "+91-9654321098" 4.6 512 "Sweet Shop" 1 28.6178 77.2056,
   mockBiz city bt 3 "Punjabi Dhaba" "Highway Junction, " "+91-9823456712" 4.3 198 "Restaurant" 1 28.6201 77.2145,
   mockBiz city bt 4 "South Indian Cafe" "22, Temple Street, " "+91-9765432187" 4.4 345 "Cafe" 1 28.6256 77.2123,
   mockBiz city bt 5 "Biryani House" "Old City, " "+91-9887654321" 4.7 623 "Restaurant" 2 28.6189 77.2078,
   mockBiz city bt 6 "Raj Electronics & Mobiles" "45, Gandhi Chowk, " "+91-9845678901" 4.2 156 "Electronics Store" 2 28.6198 77.2135,
   mockBiz city bt 7 "Patel Textile Showroom" "56-58, Cloth Market, " "+91-9876549876" 3.9 145 "Clothing Store" 2 28.6245 77.2112,
   mockBiz city bt 8 "Kumar Hardware & Sanitary" "Ground Floor, Market Complex, " "+91-9823456789" 4.4 267 "Hardware Store" 2 28.6156 77.2189,
   mockBiz city bt 9 "Fashion Plaza" "Central Market, " "+91-9712345678" 4.0 234 "Clothing Store" 2 28.6223 77.2167,
   mockBiz city bt 10 "Jain Book Depot" "Library Road, " "+91-9834567890" 4.5 187 "Book Store" 1 28.6278 77.2189,
   mockBiz city bt 11 "Gupta Medical Store" "Near City Hospital, Station Road, " "+91-9123456789" 4.7 423 "Pharmacy" 1 28.6254 77.2167,
   mockBiz city bt 12 "Lakshmi Beauty Parlour" "1st Floor, Nehru Market, " "+91-9876501234" 4.3 234 "Beauty Salon" 1 28.6321 77.2201,
   mockBiz city bt 13 "Modern Gym & Fitness Center" "2nd Floor, Mall Road, " "+91-9912345678" 4.1 178 "Gym" 2 28.6289 77.2178,
   mockBiz city bt 14 "Ayurvedic Clinic" "Green Park, " "+91-9898765432" 4.6 312 "Healthcare" 2 28.6267 77.2145,
   mockBiz city bt 15 "Yoga & Wellness Center" "Park View, " "+91-9767890123" 4.4 198 "Yoga Studio" 1 28.6298 77.2123,
   mockBiz city bt 16 "Singh Auto Repair" "Plot 23, Industrial Area, " "+91-9988776655" 4.0 89 "Car Repair" 2 28.6081 77.2298,
   mockBiz city bt 17 "Verma Cyber Cafe & Printing" "Near Bus Stand, Main Road, " "+91-9765432109" 3.8 92 "Internet Cafe" 1 28.6312 77.2234,
   mockBiz city bt 18 "Quick Laundry Service" "Behind Market, " "+91-9678901234" 4.2 145 "Laundry" 1 28.6234 77.2167,
   mockBiz city bt 19 "Professional Tailoring" "Shop 34, Shopping Complex, " "+91-9845123456" 4.5 178 "Tailor" 1 28.6189 77.2134,
   mockBiz city bt 20 "Mobile Repair Center" "Electronic Market, " "+91-9712348765" 4.1 267 "Repair Shop" 1 28.6201 77.2156,
   mockBiz city bt 21 "Smart Coaching Classes" "Upper Floor, School Road, " "+91-9834567123" 4.3 289 "Coaching Center" 2 28.6278 77.2201,
   mockBiz city bt 22 "English Speaking Institute" "2nd Floor, Main Market, " "+91-9923456789" 4.0 156 "Training Center" 2 28.6245 77.2178,
   mockBiz city bt 23 "Computer Training Academy" "IT Park, " "+91-9798765432" 4.4 312 "Computer Institute" 2 28.6289 77.2234,
   mockBiz city bt 24 "Mehta Plumbing Services" "Residential Area, " "+91-9667788990" 4.2 123 "Plumber" 1 28.6167 77.2212,
   mockBiz city bt 25 "Electrician Services" "Near Power House, " "+91-9778899001" 4.1 98 "Electrician" 1 28.6198 77.2189,
   mockBiz city bt 26 "Home Cleaning Services" "Sector 5, " "+91-9889900112" 4.3 187 "Cleaning Service" 2 28.6223 77.2145,
   mockBiz city bt 27 "Fresh Fruits & Vegetables" "Vegetable Market, " "+91-9756789012" 4.0 234 "Grocery" 1 28.6212 77.2101,
   mockBiz city bt 28 "Dairy Products Shop" "Milk Market, " "+91-9645678901" 4.5 345 "Dairy" 1 28.6234 77.2123,
   mockBiz city bt 29 "Organic Food Store" "Health Plaza, " "+91-9534567890" 4.6 278 "Organic Store" 2 28.6267 77.2167,
   mockBiz city bt 30 "Gaming Zone" "Mall Complex, " "+91-9423456789" 4.2 456 "Gaming Center" 2 28.6289 77.2189,
   mockBiz city bt 31 "Photography Studio" "Art Street, " "+91-9312345678" 4.4 267 "Photo Studio" 2 28.6278 77.2156,
   mockBiz city bt 32 "Pet Clinic & Store" "Green Avenue, " "+91-9201234567" 4.5 189 "Pet Shop" 2 28.6256 77.2212,
   mockBiz city bt 33 "Pet Grooming Salon" "Pet Care Complex, " "+91-9190123456" 4.3 145 "Pet Grooming" 2 28.6245 77.2234,
   mockBiz city bt 34 "Bike Service Center" "Auto Market, " "+91-9089012345" 4.1 234 "Bike Repair" 1 28.6189 77.2201,
   mockBiz city bt 35 "Car Accessories Shop" "Highway Road, " "+91-9978901234" 4.0 178 "Auto Parts" 2 28.6167 77.2278,
   mockBiz city bt 36 "Insurance Advisor" "Finance Street, " "+91-9867890123" 4.3 167 "Insurance" 2 28.6298 77.2145,
   mockBiz city bt 37 "Tax Consultant Office" "Business Center, " "+91-9756789123" 4.4 198 "Tax Service" 2 28.6312 77.2167,
   mockBiz city bt 38 "Travel Agency" "Tourism Hub, " "+91-9645678912" 4.2 234 "Travel Agent" 2 28.6234 77.2189]

/-- The broad catalog of ~100 category keywords searched when no business
type is given (lines 204-222, duplicates kept as in the source). -/
def commonBusinessTypes : List String :=
  ["restaurant", "cafe", "bar", "store", "shop", "retail", "salon",
   "bakery", "grocery", "food", "service", "repair", "contractor",
   "doctor", "dentist", "health", "fitness", "gym", "yoga", "spa",
   "beauty", "hair", "nail", "barber", "massage", "therapy",
   "auto", "car", "mechanic", "dealer", "parts", "tire", "detail",
   "real estate", "property", "apartment", "home", "house", "rental",
   "insurance", "financial", "bank", "accounting", "tax", "legal",
   "attorney", "lawyer", "education", "school", "tutor", "daycare",
   "child care", "pet", "veterinary", "animal", "landscaping", "lawn",
   "cleaning", "maid", "janitorial", "plumber", "electrician", "hvac",
   "construction", "roofing", "painting", "flooring", "furniture",
   "clothing", "apparel", "jewelry", "accessory", "shoe", "tailor",
   "electronics", "computer", "phone", "repair", "photography", "art",
   "craft", "hobby", "toy", "game", "book", "music", "instrument",
   "church", "religious", "nonprofit", "charity", "community",
   "event", "venue", "catering", "party", "wedding", "funeral",
   "moving", "storage", "shipping", "delivery", "transportation"]

/-- The fixed set of recognized Places `type` codes accepted by the nearby
search (lines 254-274; the identical copy at lines 313-333 is shared). -/
def placesNearbyTypes : List String :=
  ["accounting", "airport", "amusement_park", "aquarium", "art_gallery",
   "atm", "bakery", "bank", "bar", "beauty_salon", "bicycle_store",
   "book_store", "bowling_alley", "bus_station", "cafe", "campground",
   "car_dealer", "car_rental", "car_repair", "car_wash", "casino",
   "cemetery", "church", "city_hall", "clothing_store", "convenience_store",
   "courthouse", "dentist", "department_store", "doctor", "drugstore",
   "electrician", "electronics_store", "embassy", "fire_station", "florist",
   "funeral_home", "furniture_store", "gas_station", "gym", "hair_care",
   "hardware_store", "hindu_temple", "home_goods_store", "hospital", "insurance_agency",
   "jewelry_store", "laundry", "lawyer", "library", "light_rail_station",
   "liquor_store", "local_government_office", "locksmith", "lodging", "meal_delivery",
   "meal_takeaway", "mosque", "movie_rental", "movie_theater", "moving_company",
   "museum", "night_club", "painter", "park", "parking", "pet_store", "pharmacy",
   "physiotherapist", "plumber", "police", "post_office", "primary_school",
   "real_estate_agency", "restaurant", "roofing_contractor", "rv_park", "school",
   "secondary_school", "shoe_store", "shopping_mall", "spa", "stadium", "storage",
   "store", "subway_station", "supermarket", "synagogue", "taxi_stand", "tourist_attraction",
   "train_station", "transit_station", "travel_agency", "university", "veterinary_care",
   "zoo"]

/-- `search_types = [business_type] if business_type else common_business_types`
(line 228); an empty string is falsy in Python. -/
def searchTypesOf (bt : Option String) : List String :=
  match bt with
  | some t => if t = "" then commonBusinessTypes else [t]
  | none => commonBusinessTypes

/-- The per-call accumulation state of the search loop: `all_results`,
the `processed_place_ids` set (insertion order kept), and the number of
`time.sleep` delays performed so far. -/
structure SState where
  allResults : List Hit
  processed : List (Option String)
  sleeps : Nat
deriving Repr

/-- Lines 286-292 / 338-347: filter a page's results against the already-seen
identifiers, record the survivors' identifiers, and extend `all_results`.
(The filter is computed before the identifiers are added, exactly as in the
source, so duplicates inside one page all survive this pass.) -/
def addNew (st : SState) (results : List Hit) : SState :=
  let newResults := results.filter (fun r => decide (r.place_id ∉ st.processed))
  { st with
    allResults := st.allResults ++ newResults
    processed := st.processed ++ newResults.map (fun r => r.place_id) }

/-- The pagination `while` loop (lines 296-355): while a next-page token
exists and fewer than `maxR` results are accumulated, sleep, request the next
page (always through the nearby-search endpoint: the dispatch on
`search_method.__name__` never matches because lambdas are named `<lambda>`),
dedup-extend, and continue; stop early once `maxR` results are reached.
A raised request error abandons the loop keeping the state mutated so far
(the enclosing `try` of lines 279-358 catches it).  `fuel` bounds the number
of iterations of the loop, which the source does not bound. -/
def paginate (pageMk : Option String → Except String Page) (maxR : Nat) :
    Nat → Option String → SState → SState
  | _, none, st => st
  | 0, some _, st => st
  | Nat.succ fuel, some tok, st =>
    if st.allResults.length < maxR then
      let st1 : SState := { st with sleeps := st.sleeps + 1 }
      match pageMk (some tok) with
      | .error _ => st1
      | .ok page =>
        let st2 := addNew st1 page.results
        if maxR ≤ st2.allResults.length then st2
        else paginate pageMk maxR fuel page.next_page_token st2
    else st

/-- One `search_method` iteration (lines 278-358): run the initial request,
dedup-extend with its results and follow pagination.  A raised error on the
initial request leaves the state unchanged (caught and `continue`d). -/
def runMethod (initResult : Except String Page)
    (pageMk : Option String → Except String Page)
    (maxR fuel : Nat) (st : SState) : SState :=
  match initResult with
  | .error _ => st
  | .ok page => paginate pageMk maxR fuel page.next_page_token (addNew st page.results)

/-- The loop over category keywords (lines 230-358): stop once `maxR` results
are accumulated, otherwise run the text-search method and the nearby-search
method for the keyword and continue. -/
def collectTypes (env : Env) (fuel : Nat) (city : String) (radius maxR : Nat)
    (loc : Location) : List String → SState → SState
  | [], st => st
  | t :: rest, st =>
    if maxR ≤ st.allResults.length then st
    else
      let query := if t ≠ "" then t ++ " in " ++ city else "businesses in " ++ city
      let nearbyType := if t ≠ "" ∧ t ∈ placesNearbyTypes then some t else none
      let st1 := runMethod (env.textSearch query loc radius)
        (fun tok => env.nearbySearch loc radius nearbyType tok) maxR fuel st
      let st2 := runMethod (env.nearbySearch loc radius nearbyType none)
        (fun tok => env.nearbySearch loc radius nearbyType tok) maxR fuel st1
      collectTypes env fuel city radius maxR loc rest st2

/-- The `business` dictionary assembled at lines 416-431 from a raw hit and
its details record. -/
def mkBusiness (place : Hit) (d : PlaceDetails) : Business :=
  { place_id := place.place_id.getD ""
    name := d.name.getD (place.name.getD "")
    address := d.formatted_address.getD (place.formatted_address.getD "")
    phone := d.formatted_phone_number.getD ""
    website := d.website.getD ""
    rating := d.rating.getD (place.rating.getD 0)
    total_ratings := d.user_ratings_total.getD 0
    category := getPrimaryCategory (d.types.getD (place.types.getD []))
    price_level := d.price_level.getD 0
    is_open := getOpenStatus d.opening_hours
    lat := place.lat
    lng := place.lng }

/-- The detail-processing loop (lines 363-436): for each accumulated hit until
`maxR` records are collected, skip already-processed identifiers, fetch
details, apply the rating filter, the exclude-websites heuristic, and keep the
record only when its name and address are non-empty. -/
def processResults (env : Env) (minR : Rat) (exclW : Bool) (maxR : Nat) :
    List Hit → List String → List Business → List Business
  | [], _, businesses => businesses
  | place :: rest, processedB, businesses =>
    if maxR ≤ businesses.length then businesses
    else if (place.place_id.getD "") ∈ processedB then
      processResults env minR exclW maxR rest processedB businesses
    else
      match getPlaceDetails env (place.place_id.getD "") with
      | none =>
        processResults env minR exclW maxR rest
          (processedB ++ [place.place_id.getD ""]) businesses
      | some d =>
        if (d.rating.getD (place.rating.getD 0)) < minR then
          processResults env minR exclW maxR rest
            (processedB ++ [place.place_id.getD ""]) businesses
        else if exclW = true ∧ (d.website.getD "") ≠ "" ∧ looksReal (d.website.getD "") = true then
          processResults env minR exclW maxR rest
            (processedB ++ [place.place_id.getD ""]) businesses
        else if (mkBusiness place d).name ≠ "" ∧ (mkBusiness place d).address ≠ "" then
          processResults env minR exclW maxR rest
            (processedB ++ [place.place_id.getD ""]) (businesses ++ [mkBusiness place d])
        else
          processResults env minR exclW maxR rest
            (processedB ++ [place.place_id.getD ""]) businesses

/-- The live-search path of `search_businesses` (lines 200-439) once a
geocoded location is available: accumulate hits over the category keywords and
turn them into normalized records.  The second component counts the
rate-limit delays performed. -/
def liveSearch (env : Env) (fuel : Nat) (city : String) (bt : Option String)
    (radius : Nat) (minR : Rat) (maxR : Nat) (exclW : Bool) (loc : Location) :
    List Business × Nat :=
  let st := collectTypes env fuel city radius maxR loc (searchTypesOf bt)
    { allResults := [], processed := [], sleeps := 0 }
  (processResults env minR exclW maxR st.allResults [] [], st.sleeps)

/-- `_ensure_client` (lines 47-55) together with the re-entry into
`_initialize_client` (lines 28-45): may raise the `ValueError` of line 34,
otherwise returns the updated client state. -/
def ensureClient (env : Env) (cs : ClientState) : Except String ClientState :=
  if cs.client = false ∧ cs.apiKeyChecked = false then
    let cs1 : ClientState := { cs with apiKeyChecked := true }
    if env.freshApiKey ≠ "" ∧ env.freshApiKey ≠ env.apiKey then
      if env.apiKey = "" then
        .error "Google Maps API key is required for Google Maps client initialization."
      else .ok { cs1 with client := env.reinitClient }
    else .ok cs1
  else .ok cs

/-- `search_businesses` (lines 162-443).  An `Except.error` models the only
exception that can escape it (raised by `_ensure_client`, which is outside
the method's `try`); every failure inside the `try` degrades to the mock
data.  The result carries the collected records, the number of rate-limit
delays, and the client state observed after the call. -/
def searchBusinesses (env : Env) (fuel : Nat) (city : String) (bt : Option String)
    (radius : Nat) (minR : Rat) (maxR : Nat) (exclW : Bool) (cs : ClientState) :
    Except String (List Business × Nat × ClientState) :=
  match ensureClient env cs with
  | .error e => .error e
  | .ok cs2 =>
    if cs2.client = false then .ok (mockResults city bt, 0, cs2)
    else
      match env.geocode city with
      | .error _ => .ok (mockResults city bt, 0, cs2)
      | .ok [] => .ok (mockResults city bt, 0, cs2)
      | .ok (loc :: _) =>
        let r := liveSearch env fuel city bt radius minR maxR exclW loc
        .ok (r.1, r.2, cs2)

/-- `google_maps_search` (lines 456-521): wraps `search_businesses` with the
default 50 km radius and builds the result dictionary; the `except` branch
produces the error structure with the exception message. -/
def googleMapsSearch (env : Env) (fuel : Nat) (city : String) (bt : Option String)
    (minR : Rat) (maxR : Nat) (exclW : Bool) (cs : ClientState) : SearchResult :=
  match searchBusinesses env fuel city bt 50000 minR maxR exclW cs with
  | .ok (businesses, _, cs2) =>
    { status := "success"
      message := none
      total_results := businesses.length
      results := businesses
      search_metadata :=
        { city := city, business_type := bt, min_rating := minR, max_results := maxR
          api_available := cs2.client, exclude_websites := exclW } }
  | .error e =>
    { status := "error"
      message := some e
      total_results := 0
      results := []
      search_metadata :=
        { city := city, business_type := bt, min_rating := minR, max_results := maxR
          api_available := cs.client, exclude_websites := exclW } }

/-- An environment in which every outbound operation fails and no credential
is configured (offline / no-API-key deployment). -/
def envOffline : Env :=
  { apiKey := ""
    freshApiKey := ""
    reinitClient := false
    geocode := fun _ => .error "no client"
    textSearch := fun _ _ _ => .error "no client"
    nearbySearch := fun _ _ _ _ => .error "no client"
    placeDetails := fun _ => .error "no client" }

/-- An environment whose client is configured but whose geocoding returns no
match for any city. -/
def envGeoFail : Env :=
  { apiKey := "key"
    freshApiKey := "key"
    reinitClient := true
    geocode := fun _ => .ok []
    textSearch := fun _ _ _ => .error "unreachable"
    nearbySearch := fun _ _ _ _ => .error "unreachable"
    placeDetails := fun _ => .error "unreachable" }

/-- The four websites of the exclude-websites example: one real-looking site,
an empty string, a localhost address and a placeholder domain. -/
def c4Website (k : Nat) : String :=
  if k = 1 then "http://acme-corp.com"
  else if k = 2 then ""
  else if k = 3 then "http://localhost:3000"
  else "placeholder.example.com"

/-- A raw hit of the exclude-websites fixture. -/
def c4Hit (k : Nat) : Hit :=
  { place_id := some ("q" ++ toString k)
    name := some ("Biz " ++ toString k)
    formatted_address := some ("Addr " ++ toString k)
    rating := some 5
    types := none
    lat := some 1
    lng := some 2 }

/-- Details of the exclude-websites fixture: every hit resolves, passes the
rating filter and has a non-empty name and address; only the website varies. -/
def c4Details (k : Nat) : PlaceDetails :=
  { name := some ("Biz " ++ toString k)
    formatted_address := some ("Addr " ++ toString k)
    formatted_phone_number := none
    website := some (c4Website k)
    rating := some 5
    user_ratings_total := none
    types := none
    price_level := none
    opening_hours := none }

/-- Environment of the exclude-websites example: a single page of four hits
whose details carry the four example websites. -/
def envC4 : Env :=
  { apiKey := "key"
    freshApiKey := "key"
    reinitClient := true
    geocode := fun _ => .ok [⟨0, 0⟩]
    textSearch := fun _ _ _ => .ok { results := [c4Hit 1, c4Hit 2, c4Hit 3, c4Hit 4], next_page_token := none }
    nearbySearch := fun _ _ _ tok =>
      match tok with
      | none => .ok { results := [], next_page_token := none }
      | some _ => .error "bad token"
    placeDetails := fun pid =>
      if pid = "q1" then .ok (some (c4Details 1))
      else if pid = "q2" then .ok (some (c4Details 2))
      else if pid = "q3" then .ok (some (c4Details 3))
      else if pid = "q4" then .ok (some (c4Details 4))
      else .ok none }

/-- A raw hit of the pagination fixture: sixty distinct identifiers. -/
def c8Hit (i : Nat) : Hit :=
  { place_id := some ("p" ++ toString i)
    name := some ("Hit " ++ toString i)
    formatted_address := some ("HitAddr " ++ toString i)
    rating := some 4
    types := some ["restaurant"]
    lat := some 1
    lng := some 2 }

/-- Environment of the pagination fixture: the text search returns the first
of three pages of twenty distinct hits; the following pages are served against
the returned tokens; the plain nearby search is empty; every hit has
retrievable details passing all filters. -/
def envC8 : Env :=
  { apiKey := "key"
    freshApiKey := "key"
    reinitClient := true
    geocode := fun _ => .ok [⟨0, 0⟩]
    textSearch := fun _ _ _ =>
      .ok { results := (List.range 20).map c8Hit, next_page_token := some "t1" }
    nearbySearch := fun _ _ _ tok =>
      match tok with
      | none => .ok { results := [], next_page_token := none }
      | some "t1" => .ok { results := (List.range 20).map (fun i => c8Hit (20 + i)), next_page_token := some "t2" }
      | some "t2" => .ok { results := (List.range 20).map (fun i => c8Hit (40 + i)), next_page_token := none }
      | some _ => .error "bad token"
    placeDetails := fun pid =>
      .ok (some
        { name := some ("N" ++ pid)
          formatted_address := some ("A" ++ pid)
          formatted_phone_number := none
          website := none
          rating := none
          user_ratings_total := none
          types := none
          price_level := none
          opening_hours := none }) }

/-- The record the pagination fixture produces for hit `i`. -/
def c8Business (i : Nat) : Business :=
  { place_id := "p" ++ toString i
    name := "N" ++ ("p" ++ toString i)
    address := "A" ++ ("p" ++ toString i)
    phone := ""
    website := ""
    rating := 4
    total_ratings := 0
    category := "restaurant"
    price_level := 0
    is_open := false
    lat := some 1
    lng := some 2 }

lemma string_append_cancel_left (a b c : String) (h : a ++ b = a ++ c) : b = c := by
  have hd : a.data ++ b.data = a.data ++ c.data := congrArg String.data h
  exact congrArg String.mk (List.append_cancel_left hd)

lemma append3_ne_empty (p q r : String) (hp : p ≠ "") : p ++ q ++ r ≠ "" := by
  intro h
  apply hp
  have hd : (p.data ++ q.data) ++ r.data = [] := congrArg String.data h
  have h1 : p.data ++ q.data = [] := (List.append_eq_nil.mp hd).1
  exact congrArg String.mk (List.append_eq_nil.mp h1).1

/-- The indices of the 38 mock records. -/
def mockKs : List Nat :=
  [1, 2, 3, 4, 5, 6, 7, 8, 9, 10, 11, 12, 13, 14, 15, 16, 17, 18, 19,
   20, 21, 22, 23, 24, 25, 26, 27, 28, 29, 30, 31, 32, 33, 34, 35, 36, 37, 38]

lemma toString_inj_on_mockKs :
    ∀ x ∈ mockKs, ∀ y ∈ mockKs, toString x = toString y → x = y := by decide

lemma mock_map_place_id (city : String) (bt : Option String) :
    (mockResults city bt).map (fun b => b.place_id) = mockKs.map (mockId city) := rfl

lemma mockId_inj_on (city : String) :
    ∀ x ∈ mockKs, ∀ y ∈ mockKs, mockId city x = mockId city y → x = y := by
  intro x hx y hy hxy
  apply toString_inj_on_mockKs x hx y hy
  exact string_append_cancel_left ("mock_" ++ strLower city ++ "_") _ _ hxy

lemma mock_nodup (city : String) (bt : Option String) :
    ((mockResults city bt).map (fun b => b.place_id)).Nodup := by
  rw [mock_map_place_id]
  exact (by decide : mockKs.Nodup).map_on (mockId_inj_on city)

lemma mock_name_address (city : String) (bt : Option String) :
    ∀ b ∈ mockResults city bt, b.name ≠ "" ∧ b.address ≠ "" := by
  simp only [mockResults, List.forall_mem_cons, List.forall_mem_nil, and_true]
  repeat' apply And.intro
  all_goals try simp only [mockBiz]
  all_goals first
    | decide
    | (apply append3_ne_empty
       decide)

lemma mock_length (city : String) (bt : Option String) :
    (mockResults city bt).length = 38 := rfl

lemma processResults_length_le (env : Env) (minR : Rat) (exclW : Bool) (maxR : Nat) :
    ∀ (hits : List Hit) (pb : List String) (bs : List Business),
      bs.length ≤ maxR → (processResults env minR exclW maxR hits pb bs).length ≤ maxR := by
  intro hits
  induction hits with
  | nil => intro pb bs h; simpa [processResults] using h
  | cons place rest ih =>
    intro pb bs h
    unfold processResults
    by_cases h1 : maxR ≤ bs.length
    · rw [if_pos h1]; exact h
    · rw [if_neg h1]
      by_cases h2 : (place.place_id.getD "") ∈ pb
      · rw [if_pos h2]; exact ih _ _ h
      · rw [if_neg h2]
        split
        · exact ih _ _ h
        · rename_i d heq
          by_cases h3 : (d.rating.getD (place.rating.getD 0)) < minR
          · rw [if_pos h3]; exact ih _ _ h
          · rw [if_neg h3]
            by_cases h4 : exclW = true ∧ (d.website.getD "") ≠ "" ∧ looksReal (d.website.getD "") = true
            · rw [if_pos h4]; exact ih _ _ h
            · rw [if_neg h4]
              by_cases h5 : (mkBusiness place d).name ≠ "" ∧ (mkBusiness place d).address ≠ ""
              · rw [if_pos h5]
                apply ih
                have hlt : bs.length < maxR := Nat.lt_of_not_le h1
                simp only [List.length_append, List.length_singleton]
                omega
              · rw [if_neg h5]; exact ih _ _ h

lemma processResults_mem (env : Env) (minR : Rat) (exclW : Bool) (maxR : Nat) :
    ∀ (hits : List Hit) (pb : List String) (bs : List Business) (b : Business),
      b ∈ processResults env minR exclW maxR hits pb bs →
      b ∈ bs ∨ (b.name ≠ "" ∧ b.address ≠ "" ∧
        ¬(exclW = true ∧ b.website ≠ "" ∧ looksReal b.website = true)) := by
  intro hits
  induction hits with
  | nil => intro pb bs b hb; exact Or.inl (by simpa [processResults] using hb)
  | cons place rest ih =>
    intro pb bs b hb
    unfold processResults at hb
    by_cases h1 : maxR ≤ bs.length
    · rw [if_pos h1] at hb; exact Or.inl hb
    · rw [if_neg h1] at hb
      by_cases h2 : (place.place_id.getD "") ∈ pb
      · rw [if_pos h2] at hb; exact ih _ _ _ hb
      · rw [if_neg h2] at hb
        split at hb
        · exact ih _ _ _ hb
        · rename_i d heq
          by_cases h3 : (d.rating.getD (place.rating.getD 0)) < minR
          · rw [if_pos h3] at hb; exact ih _ _ _ hb
          · rw [if_neg h3] at hb
            by_cases h4 : exclW = true ∧ (d.website.getD "") ≠ "" ∧ looksReal (d.website.getD "") = true
            · rw [if_pos h4] at hb; exact ih _ _ _ hb
            · rw [if_neg h4] at hb
              by_cases h5 : (mkBusiness place d).name ≠ "" ∧ (mkBusiness place d).address ≠ ""
              · rw [if_pos h5] at hb
                rcases ih _ _ _ hb with hmem | hP
                · rcases List.mem_append.mp hmem with hl | hr
                  · exact Or.inl hl
                  · have hbnb : b = mkBusiness place d := by simpa using hr
                    subst hbnb
                    exact Or.inr ⟨h5.1, h5.2, h4⟩
                · exact Or.inr hP
              · rw [if_neg h5] at hb; exact ih _ _ _ hb

lemma processResults_nodup (env : Env) (minR : Rat) (exclW : Bool) (maxR : Nat) :
    ∀ (hits : List Hit) (pb : List String) (bs : List Business),
      (bs.map (fun b => b.place_id)).Nodup →
      (∀ b ∈ bs, b.place_id ∈ pb) →
      ((processResults env minR exclW maxR hits pb bs).map (fun b => b.place_id)).Nodup := by
  intro hits
  induction hits with
  | nil => intro pb bs hnd hin; simpa [processResults] using hnd
  | cons place rest ih =>
    intro pb bs hnd hin
    unfold processResults
    by_cases h1 : maxR ≤ bs.length
    · rw [if_pos h1]; exact hnd
    · rw [if_neg h1]
      by_cases h2 : (place.place_id.getD "") ∈ pb
      · rw [if_pos h2]; exact ih _ _ hnd hin
      · rw [if_neg h2]
        have hin' : ∀ b ∈ bs, b.place_id ∈ pb ++ [place.place_id.getD ""] :=
          fun b hb => List.mem_append_left _ (hin b hb)
        split
        · exact ih _ _ hnd hin'
        · rename_i d heq
          by_cases h3 : (d.rating.getD (place.rating.getD 0)) < minR
          · rw [if_pos h3]; exact ih _ _ hnd hin'
          · rw [if_neg h3]
            by_cases h4 : exclW = true ∧ (d.website.getD "") ≠ "" ∧ looksReal (d.website.getD "") = true
            · rw [if_pos h4]; exact ih _ _ hnd hin'
            · rw [if_neg h4]
              by_cases h5 : (mkBusiness place d).name ≠ "" ∧ (mkBusiness place d).address ≠ ""
              · rw [if_pos h5]
                apply ih
                · have hnotin : (place.place_id.getD "") ∉ bs.map (fun b => b.place_id) := by
                    intro hmem
                    rcases List.mem_map.mp hmem with ⟨b, hb, hpid⟩
                    exact h2 (hpid ▸ hin b hb)
                  simp only [List.map_append, List.map_cons, List.map_nil]
                  refine List.nodup_append.mpr ⟨hnd, List.nodup_singleton _, ?_⟩
                  intro a ha hmem1
                  have hap : a = place.place_id.getD "" := by simpa [mkBusiness] using hmem1
                  exact hnotin (hap ▸ ha)
                · intro b hb
                  rcases List.mem_append.mp hb with hl | hr
                  · exact List.mem_append_left _ (hin b hl)
                  · have hbnb : b = mkBusiness place d := by simpa using hr
                    subst hbnb
                    exact List.mem_append_right _ (by simp [mkBusiness])
              · rw [if_neg h5]; exact ih _ _ hnd hin'

lemma liveSearch_length_le (env : Env) (fuel : Nat) (city : String) (bt : Option String)
    (radius : Nat) (minR : Rat) (maxR : Nat) (exclW : Bool) (loc : Location) :
    ((liveSearch env fuel city bt radius minR maxR exclW loc).1).length ≤ maxR :=
  processResults_length_le env minR exclW maxR _ [] [] (Nat.zero_le _)

lemma liveSearch_mem {env : Env} {fuel : Nat} {city : String} {bt : Option String}
    {radius : Nat} {minR : Rat} {maxR : Nat} {exclW : Bool} {loc : Location} {b : Business}
    (hb : b ∈ (liveSearch env fuel city bt radius minR maxR exclW loc).1) :
    b.name ≠ "" ∧ b.address ≠ "" ∧
      ¬(exclW = true ∧ b.website ≠ "" ∧ looksReal b.website = true) := by
  have hb2 : b ∈ processResults env minR exclW maxR
      (collectTypes env fuel city radius maxR loc (searchTypesOf bt)
        { allResults := [], processed := [], sleeps := 0 }).allResults [] [] := hb
  rcases processResults_mem env minR exclW maxR _ [] [] b hb2 with h | h
  · cases h
  · exact h

lemma liveSearch_nodup (env : Env) (fuel : Nat) (city : String) (bt : Option String)
    (radius : Nat) (minR : Rat) (maxR : Nat) (exclW : Bool) (loc : Location) :
    (((liveSearch env fuel city bt radius minR maxR exclW loc).1).map (fun b => b.place_id)).Nodup :=
  processResults_nodup env minR exclW maxR _ [] [] (by simp) (by simp)

lemma searchBusinesses_ok {env : Env} {fuel : Nat} {city : String} {bt : Option String}
    {radius : Nat} {minR : Rat} {maxR : Nat} {exclW : Bool} {cs : ClientState}
    {bs : List Business} {sl : Nat} {cs2 : ClientState}
    (h : searchBusinesses env fuel city bt radius minR maxR exclW cs = .ok (bs, sl, cs2)) :
    bs = mockResults city bt ∨
      ∃ loc, bs = (liveSearch env fuel city bt radius minR maxR exclW loc).1 := by
  unfold searchBusinesses at h
  split at h
  · simp at h
  · split at h
    · simp only [Except.ok.injEq, Prod.mk.injEq] at h
      exact Or.inl h.1.symm
    · split at h
      · simp only [Except.ok.injEq, Prod.mk.injEq] at h
        exact Or.inl h.1.symm
      · simp only [Except.ok.injEq, Prod.mk.injEq] at h
        exact Or.inl h.1.symm
      · rename_i loc rest heq2
        simp only [Except.ok.injEq, Prod.mk.injEq] at h
        exact Or.inr ⟨loc, h.1.symm⟩

lemma searchBusinesses_ok_clientState {env : Env} {fuel : Nat} {city : String}
    {bt : Option String} {radius : Nat} {minR : Rat} {maxR : Nat} {exclW : Bool}
    {cs : ClientState} {bs : List Business} {sl : Nat} {cs2 : ClientState}
    (h : searchBusinesses env fuel city bt radius minR maxR exclW cs = .ok (bs, sl, cs2)) :
    ensureClient env cs = .ok cs2 := by
  unfold searchBusinesses at h
  split at h
  · simp at h
  · rename_i cs3 heq
    split at h
    · simp only [Except.ok.injEq, Prod.mk.injEq] at h
      rw [heq, h.2.2]
    · split at h
      · simp only [Except.ok.injEq, Prod.mk.injEq] at h
        rw [heq, h.2.2]
      · simp only [Except.ok.injEq, Prod.mk.injEq] at h
        rw [heq, h.2.2]
      · simp only [Except.ok.injEq, Prod.mk.injEq] at h
        rw [heq, h.2.2]

lemma searchBusinesses_error_clientState {env : Env} {fuel : Nat} {city : String}
    {bt : Option String} {radius : Nat} {minR : Rat} {maxR : Nat} {exclW : Bool}
    {cs : ClientState} {e : String}
    (h : searchBusinesses env fuel city bt radius minR maxR exclW cs = .error e) :
    ensureClient env cs = .error e := by
  unfold searchBusinesses at h
  split at h
  · rename_i e2 heq
    simp only [Except.error.injEq] at h
    rw [heq, h]
  · split at h
    · simp at h
    · split at h
      · simp at h
      · simp at h
      · simp at h

lemma gms_results_mem {env : Env} {fuel : Nat} {city : String} {bt : Option String}
    {minR : Rat} {maxR : Nat} {exclW : Bool} {cs : ClientState} {b : Business}
    (hb : b ∈ (googleMapsSearch env fuel city bt minR maxR exclW cs).results) :
    b.name ≠ "" ∧ b.address ≠ "" := by
  unfold googleMapsSearch at hb
  cases hsb : searchBusinesses env fuel city bt 50000 minR maxR exclW cs with
  | error e =>
    rw [hsb] at hb
    exact absurd hb (by simp)
  | ok t =>
    obtain ⟨bs, sl, cs2⟩ := t
    rw [hsb] at hb
    have hb2 : b ∈ bs := hb
    rcases searchBusinesses_ok hsb with hmock | ⟨loc, hlive⟩
    · exact mock_name_address city bt b (hmock ▸ hb2)
    · have h := liveSearch_mem (hlive ▸ hb2)
      exact ⟨h.1, h.2.1⟩

/-- C1 counterexample: with valid inputs (non-empty city `"Springfield"`,
`maxResults = 1`, `minRating = 0`, the default 50 km radius) but the search
capability unavailable, the call returns all 38 synthetic records, so the
result is NOT bounded by `maxResults` on the synthetic-fallback path. -/
theorem c1_fallback_exceeds_max_results :
    (googleMapsSearch envOffline 0 "Springfield" none 0 1 true ⟨false, true⟩).results.length = 38 ∧
    ¬((googleMapsSearch envOffline 0 "Springfield" none 0 1 true ⟨false, true⟩).results.length ≤ 1) := by
  constructor
  · rfl
  · decide

/-- C1 (amended): every result list is either bounded by `maxResults` (the
live-search path and the error path) or is exactly the fixed 38-record mock
list (the synthetic-fallback path, which ignores `maxResults`). -/
theorem c1_results_bounded_or_mock (env : Env) (fuel : Nat) (city : String)
    (bt : Option String) (minR : Rat) (maxR : Nat) (exclW : Bool) (cs : ClientState) :
    (googleMapsSearch env fuel city bt minR maxR exclW cs).results.length ≤ maxR ∨
    (googleMapsSearch env fuel city bt minR maxR exclW cs).results = mockResults city bt := by
  unfold googleMapsSearch
  cases hsb : searchBusinesses env fuel city bt 50000 minR maxR exclW cs with
  | error e => exact Or.inl (Nat.zero_le _)
  | ok t =>
    obtain ⟨bs, sl, cs2⟩ := t
    show bs.length ≤ maxR ∨ bs = mockResults city bt
    rcases searchBusinesses_ok hsb with hmock | ⟨loc, hlive⟩
    · exact Or.inr hmock
    · rw [hlive]
      exact Or.inl (liveSearch_length_le env fuel city bt 50000 minR maxR exclW loc)

/-- C2 counterexample: with the client configured but geocoding returning no
match, the call returns the synthetic fallback records while
`searchMetadata.api_available` is still `true` — the flag does not reflect
that the live capability failed mid-call. -/
theorem c2_flag_true_despite_fallback :
    (googleMapsSearch envGeoFail 0 "Springfield" none 0 500 true ⟨true, true⟩).results
      = mockResults "Springfield" none ∧
    (googleMapsSearch envGeoFail 0 "Springfield" none 0 500 true ⟨true, true⟩).search_metadata.api_available
      = true :=
  ⟨rfl, rfl⟩

/-- C2 (amended): `searchMetadata.api_available` equals exactly whether the
client object is non-null after the ensure-client step (its prior state when
that step raised) — i.e. whether credentials produced a client, regardless of
whether synthetic fallback records were returned by this call. -/
theorem c2_flag_equals_client_state (env : Env) (fuel : Nat) (city : String)
    (bt : Option String) (minR : Rat) (maxR : Nat) (exclW : Bool) (cs : ClientState) :
    (googleMapsSearch env fuel city bt minR maxR exclW cs).search_metadata.api_available =
      (match ensureClient env cs with
       | .ok cs2 => cs2.client
       | .error _ => cs.client) := by
  unfold googleMapsSearch
  cases hsb : searchBusinesses env fuel city bt 50000 minR maxR exclW cs with
  | error e => rw [searchBusinesses_error_clientState hsb]
  | ok t =>
    obtain ⟨bs, sl, cs2⟩ := t
    rw [searchBusinesses_ok_clientState hsb]

/-- C3: when no client is available, the call returns the synthetic records:
their identifiers depend only on the city (identical across any two calls
with the same city, whatever the other arguments and environment), at least
35 records are returned, and `searchMetadata.api_available` is `false`. -/
theorem c3_offline_deterministic_fallback (env env2 : Env) (fuel fuel2 : Nat)
    (city : String) (bt bt2 : Option String) (minR minR2 : Rat) (maxR maxR2 : Nat)
    (exclW exclW2 : Bool) :
    (googleMapsSearch env fuel city bt minR maxR exclW ⟨false, true⟩).results.map (fun b => b.place_id)
      = (googleMapsSearch env2 fuel2 city bt2 minR2 maxR2 exclW2 ⟨false, true⟩).results.map (fun b => b.place_id)
    ∧ 35 ≤ (googleMapsSearch env fuel city bt minR maxR exclW ⟨false, true⟩).results.length
    ∧ (googleMapsSearch env fuel city bt minR maxR exclW ⟨false, true⟩).search_metadata.api_available
        = false := by
  refine ⟨rfl, ?_, rfl⟩
  show (35 : Nat) ≤ 38
  decide

/-- C4: with `excludeWebsites = true`, no record returned by the live-search
path carries a website passing the looks-real heuristic; and on the example
fixture the detail website `"http://acme-corp.com"` excludes its record while
`""`, `"http://localhost:3000"` and `"placeholder.example.com"` are kept. -/
theorem c4_exclude_websites_heuristic :
    (∀ (env : Env) (fuel : Nat) (city : String) (bt : Option String) (radius : Nat)
        (minR : Rat) (maxR : Nat) (loc : Location),
      (liveSearch env fuel city bt radius minR maxR true loc).1.all
        (fun b => !looksReal b.website) = true) ∧
    (liveSearch envC4 5 "Metropolis" (some "restaurant") 50000 0 500 true ⟨0, 0⟩).1.map
      (fun b => b.website) = ["", "http://localhost:3000", "placeholder.example.com"] := by
  constructor
  · intro env fuel city bt radius minR maxR loc
    rw [List.all_eq_true]
    intro b hb
    rcases liveSearch_mem hb with ⟨_, _, hw⟩
    by_cases hwe : b.website = ""
    · rw [hwe]; decide
    · have hlf : looksReal b.website = false := by
        cases hlr : looksReal b.website
        · rfl
        · exact absurd ⟨rfl, hwe, hlr⟩ hw
      rw [hlf]; rfl
  · decide

/-- C5: in every result list returned by one call, no two records share the
same `place_id`. -/
theorem c5_place_id_nodup (env : Env) (fuel : Nat) (city : String) (bt : Option String)
    (minR : Rat) (maxR : Nat) (exclW : Bool) (cs : ClientState) :
    ((googleMapsSearch env fuel city bt minR maxR exclW cs).results.map (fun b => b.place_id)).Nodup := by
  unfold googleMapsSearch
  cases hsb : searchBusinesses env fuel city bt 50000 minR maxR exclW cs with
  | error e => exact List.nodup_nil
  | ok t =>
    obtain ⟨bs, sl, cs2⟩ := t
    show (bs.map (fun b => b.place_id)).Nodup
    rcases searchBusinesses_ok hsb with hmock | ⟨loc, hlive⟩
    · rw [hmock]; exact mock_nodup city bt
    · rw [hlive]; exact liveSearch_nodup env fuel city bt 50000 minR maxR exclW loc

/-- C6: every record in any returned result list has a non-empty name and a
non-empty address. -/
theorem c6_name_address_nonempty (env : Env) (fuel : Nat) (city : String)
    (bt : Option String) (minR : Rat) (maxR : Nat) (exclW : Bool) (cs : ClientState) :
    (googleMapsSearch env fuel city bt minR maxR exclW cs).results.all
      (fun b => (b.name != "") && (b.address != "")) = true := by
  rw [List.all_eq_true]
  intro b hb
  have h := gms_results_mem hb
  simp only [Bool.and_eq_true, bne_iff_ne]
  exact h

/-- C7: the operation never raises: for every environment and client state it
returns a well-formed structure; the success branch carries the collected
records with matching `total_results`, and the error branch (taken exactly
when the inner call raised) has `status = "error"`, empty results,
`total_results = 0` and the exception message. -/
theorem c7_total_with_error_shape (env : Env) (fuel : Nat) (city : String)
    (bt : Option String) (minR : Rat) (maxR : Nat) (exclW : Bool) (cs : ClientState) :
    (∃ bs sl cs2, searchBusinesses env fuel city bt 50000 minR maxR exclW cs = .ok (bs, sl, cs2) ∧
      (googleMapsSearch env fuel city bt minR maxR exclW cs).status = "success" ∧
      (googleMapsSearch env fuel city bt minR maxR exclW cs).results = bs ∧
      (googleMapsSearch env fuel city bt minR maxR exclW cs).total_results = bs.length ∧
      (googleMapsSearch env fuel city bt minR maxR exclW cs).message = none) ∨
    (∃ e, searchBusinesses env fuel city bt 50000 minR maxR exclW cs = .error e ∧
      (googleMapsSearch env fuel city bt minR maxR exclW cs).status = "error" ∧
      (googleMapsSearch env fuel city bt minR maxR exclW cs).results = [] ∧
      (googleMapsSearch env fuel city bt minR maxR exclW cs).total_results = 0 ∧
      (googleMapsSearch env fuel city bt minR maxR exclW cs).message = some e) := by
  cases hsb : searchBusinesses env fuel city bt 50000 minR maxR exclW cs with
  | error e =>
    right
    refine ⟨e, rfl, ?_, ?_, ?_, ?_⟩ <;> (unfold googleMapsSearch; rw [hsb])
  | ok t =>
    obtain ⟨bs, sl, cs2⟩ := t
    left
    refine ⟨bs, sl, cs2, rfl, ?_, ?_, ?_, ?_⟩ <;> (unfold googleMapsSearch; rw [hsb])

/-- C8: on a fixture where the search returns three pages of twenty distinct
hits whose details all pass the filters, the call with `maxResults = 50`
returns exactly the first 50 hits in page order, and exactly two rate-limit
delays were performed — one before each next-page request. -/
theorem c8_pagination_first_fifty :
    searchBusinesses envC8 20 "Gotham" (some "restaurant") 50000 0 50 false ⟨true, true⟩
      = .ok ((List.range 50).map c8Business, 2, ⟨true, true⟩) := by
  set_option maxRecDepth 100000 in rfl

/-- C9: category derivation returns the first raw type whose lowercasing
contains one of the fixed business keywords as a substring, otherwise the
first raw type, otherwise the empty string; in particular
`["point_of_interest", "restaurant", "food"]` yields `"restaurant"` and
`["unknown_type"]` yields `"unknown_type"`. -/
theorem c9_category_derivation :
    (∀ ts : List String,
      (∃ t, ts.find? categoryKeywordHit = some t ∧ getPrimaryCategory ts = t) ∨
      (ts.find? categoryKeywordHit = none ∧ getPrimaryCategory ts = ts.headD "")) ∧
    getPrimaryCategory ["point_of_interest", "restaurant", "food"] = "restaurant" ∧
    getPrimaryCategory ["unknown_type"] = "unknown_type" := by
  refine ⟨?_, by decide, by decide⟩
  intro ts
  unfold getPrimaryCategory
  by_cases hts : ts.isEmpty
  · rw [if_pos hts]
    have he : ts = [] := by
      cases ts
      · rfl
      · simp [List.isEmpty] at hts
    subst he
    exact Or.inr ⟨rfl, rfl⟩
  · rw [if_neg hts]
    cases hf : ts.find? categoryKeywordHit with
    | some t => exact Or.inl ⟨t, rfl, rfl⟩
    | none => exact Or.inr ⟨rfl, rfl⟩

/-- C10: on the fallback path the returned records do not depend on
`minRating` or `excludeWebsites`; in particular a record with rating 3.8 is
among the results even when `minRating = 4.5`. -/
theorem c10_fallback_ignores_filters (env : Env) (fuel : Nat) (city : String)
    (bt : Option String) (minR minR2 : Rat) (maxR : Nat) (exclW exclW2 : Bool) :
    (googleMapsSearch env fuel city bt minR maxR exclW ⟨false, true⟩).results
      = (googleMapsSearch env fuel city bt minR2 maxR exclW2 ⟨false, true⟩).results
    ∧ (3.8 : Rat) ∈ (googleMapsSearch env fuel city bt 4.5 maxR exclW ⟨false, true⟩).results.map
        (fun b => b.rating)
    ∧ (3.8 : Rat) < 4.5 := by
  refine ⟨rfl, ?_, by norm_num⟩
  have h : (googleMapsSearch env fuel city bt 4.5 maxR exclW ⟨false, true⟩).results.map
      (fun b => b.rating)
      = [4.5, 4.6, 4.3, 4.4, 4.7, 4.2, 3.9, 4.4, 4.0, 4.5, 4.7, 4.3, 4.1, 4.6, 4.4, 4.0, 3.8,
         4.2, 4.5, 4.1, 4.3, 4.0, 4.4, 4.2, 4.1, 4.3, 4.0, 4.5, 4.6, 4.2, 4.4, 4.5, 4.3, 4.1,
         4.0, 4.3, 4.4, 4.2] := rfl
  rw [h]
  iterate 16 right
  exact List.Mem.head _
